import Mathlib

/-!
Shallow embedding of the TodoList application (`src/App.tsx`).

The application keeps two pieces of state: an ordered list of todo records
and an analytics counter record.  The event handlers `addTodo`, `toggleTodo`
and `deleteTodo`, the derived `filteredTodos` view, the analytics hydration
effect and the derived metrics (completion rate, average session duration)
are modelled here as pure functions.  Timestamps (`Date.now()`, stored
`Date` values) are modelled as integers (milliseconds); JavaScript numeric
expressions appearing in the derived metrics are modelled over `ℚ` with
explicit floor/truncation, matching `Math.floor`, `Math.round` and the
float remainder operator `%`.
-/

/-- The `Todo` interface: `{ id; text; completed; createdAt }`. -/
structure Todo where
  id : ℤ
  text : String
  completed : Bool
  createdAt : ℤ
deriving DecidableEq, Repr

/-- The `Analytics` interface.  Counters are naturals, timestamps are
integer milliseconds. -/
structure Analytics where
  totalVisitors : ℕ
  pageViews : ℕ
  sessionStart : ℤ
  lastVisit : ℤ
  todosCreated : ℕ
  todosCompleted : ℕ
  todosDeleted : ℕ
  sessionsCount : ℕ
deriving DecidableEq, Repr

/-- The three-valued filter selector `type FilterType = 'all' | 'active' | 'completed'`. -/
inductive FilterType where
  | all
  | active
  | completed
deriving DecidableEq, Repr

/-- Strip leading and trailing whitespace from a character list. -/
def trimChars (cs : List Char) : List Char :=
  ((cs.dropWhile Char.isWhitespace).reverse.dropWhile Char.isWhitespace).reverse

/-- JavaScript `String.prototype.trim`: strip whitespace from both ends. -/
def jsTrim (s : String) : String := ⟨trimChars s.data⟩

/-- `addTodo`: if the trimmed input is non-empty, append a fresh record
(`id = Date.now()`, trimmed text, `completed = false`, `createdAt = now`)
to the end of the list, clear the input field and increment `todosCreated`;
otherwise leave everything unchanged.  Returns (todos, analytics, inputValue). -/
def addTodo (todos : List Todo) (a : Analytics) (inputValue : String) (now : ℤ) :
    List Todo × Analytics × String :=
  if jsTrim inputValue ≠ "" then
    (todos ++ [{ id := now, text := jsTrim inputValue, completed := false, createdAt := now }],
     { a with todosCreated := a.todosCreated + 1 },
     "")
  else
    (todos, a, inputValue)

/-- The body of the `todos.map` callback in `toggleTodo`: flip `completed`
on a record whose id matches. -/
def flipIf (id : ℤ) (t : Todo) : Todo :=
  if t.id == id then { t with completed := !t.completed } else t

/-- `toggleTodo(id)`: map over the list flipping `completed` on every record
whose id matches; inside the map callback, each record that matches and is
not yet completed fires one functional `todosCompleted + 1` analytics
update, so the counter grows by the number of matching incomplete records. -/
def toggleTodo (todos : List Todo) (a : Analytics) (id : ℤ) :
    List Todo × Analytics :=
  (todos.map (flipIf id),
   { a with
       todosCompleted :=
         a.todosCompleted + todos.countP (fun t => t.id == id && !t.completed) })

/-- `deleteTodo(id)`: keep exactly the records whose id differs, and
increment `todosDeleted` unconditionally. -/
def deleteTodo (todos : List Todo) (a : Analytics) (id : ℤ) :
    List Todo × Analytics :=
  (todos.filter (fun t => t.id != id),
   { a with todosDeleted := a.todosDeleted + 1 })

/-- The filter predicate used by `filteredTodos`:
`if (filter === 'active') return !todo.completed; if (filter === 'completed')
return todo.completed; return true;`. -/
def filterPred (filter : FilterType) (t : Todo) : Bool :=
  match filter with
  | .active => !t.completed
  | .completed => t.completed
  | .all => true

/-- The derived `filteredTodos` collection. -/
def filteredTodos (filter : FilterType) (todos : List Todo) : List Todo :=
  todos.filter (filterPred filter)

/-- The `useState` initial analytics value: all counters zero,
`sessionStart = Date.now()` at mount, `lastVisit = 0`. -/
def initAnalytics (now : ℤ) : Analytics :=
  { totalVisitors := 0
    pageViews := 0
    sessionStart := now
    lastVisit := 0
    todosCreated := 0
    todosCompleted := 0
    todosDeleted := 0
    sessionsCount := 0 }

/-- `24 * 60 * 60 * 1000` milliseconds. -/
def oneDayMs : ℤ := 24 * 60 * 60 * 1000

/-- The analytics-initialization effect run once per page load: with a
persisted record, carry it forward with `pageViews`/`sessionsCount`
incremented, `sessionStart`/`lastVisit` stamped to `now`, and
`totalVisitors` incremented exactly when `now - lastVisit > oneDayMs`;
with no persisted record, update the in-memory state `prev` with
`totalVisitors = 1`, `pageViews = 1`, `lastVisit = now`, `sessionsCount = 1`. -/
def hydrateAnalytics (saved : Option Analytics) (now : ℤ) (prev : Analytics) :
    Analytics :=
  match saved with
  | some p =>
      { p with
          pageViews := p.pageViews + 1
          totalVisitors :=
            if now - p.lastVisit > oneDayMs then p.totalVisitors + 1
            else p.totalVisitors
          sessionStart := now
          lastVisit := now
          sessionsCount := p.sessionsCount + 1 }
  | none =>
      { prev with
          totalVisitors := 1
          pageViews := 1
          lastVisit := now
          sessionsCount := 1 }

/-- JavaScript `Math.round` on an exact rational: round half toward `+∞`,
i.e. `⌊x + 1/2⌋`, which is Mathlib's `round`. -/
def completionRate (a : Analytics) : ℤ :=
  if a.todosCreated > 0 then
    round (((a.todosCompleted : ℚ) / (a.todosCreated : ℚ)) * 100)
  else 0

/-- JavaScript truncation toward zero (the implicit conversion inside the
float remainder operator). -/
def jsTrunc (q : ℚ) : ℤ :=
  if 0 ≤ q then ⌊q⌋ else ⌈q⌉

/-- The JavaScript float remainder `x % y`: `x - y * trunc (x / y)`. -/
def jsMod (x y : ℚ) : ℚ :=
  x - y * (jsTrunc (x / y) : ℚ)

/-- `getAverageSessionDuration`: guard on `sessionsCount === 0`, otherwise
divide the current-session delta by the session count and format with
`Math.floor` into minutes and seconds. -/
def getAverageSessionDuration (a : Analytics) (now : ℤ) : String :=
  if a.sessionsCount = 0 then "0m 0s"
  else
    let avgDuration : ℚ := ((now : ℚ) - (a.sessionStart : ℚ)) / (a.sessionsCount : ℚ)
    let minutes : ℤ := ⌊avgDuration / 60000⌋
    let seconds : ℤ := ⌊jsMod avgDuration 60000 / 1000⌋
    toString minutes ++ "m " ++ toString seconds ++ "s"

/-- Pointwise ordering of the six analytics counters (the two timestamp
fields are excluded). -/
def CountersLE (a b : Analytics) : Prop :=
  a.totalVisitors ≤ b.totalVisitors ∧
  a.pageViews ≤ b.pageViews ∧
  a.todosCreated ≤ b.todosCreated ∧
  a.todosCompleted ≤ b.todosCompleted ∧
  a.todosDeleted ≤ b.todosDeleted ∧
  a.sessionsCount ≤ b.sessionsCount

instance : DecidablePred fun p : Analytics × Analytics => CountersLE p.1 p.2 :=
  fun _ => by unfold CountersLE; infer_instance

/-! ## Basic facts used by several theorems -/

theorem toString_intCast (k : ℕ) : toString ((k : ℤ)) = toString k := rfl

theorem filter_not_length_add_countP {α : Type} (p : α → Bool) (l : List α) :
    (l.filter fun t => !p t).length + l.countP p = l.length := by
  induction l with
  | nil => simp
  | cons t l ih =>
    cases h : p t <;> simp [List.filter_cons, List.countP_cons, h] <;> omega

/-! ## C1: adding a todo -/

/-- C1: for input whose trimmed form is non-empty, `addTodo` appends exactly
one record (trimmed text, `completed = false`) to the end and increments
`todosCreated` by one; for whitespace-only input both the list and the
analytics record are unchanged. -/
theorem addTodo_spec (todos : List Todo) (a : Analytics) (input : String) (now : ℤ) :
    (jsTrim input ≠ "" →
      (addTodo todos a input now).1 =
        todos ++ [{ id := now, text := jsTrim input, completed := false, createdAt := now }] ∧
      (addTodo todos a input now).2.1.todosCreated = a.todosCreated + 1 ∧
      (addTodo todos a input now).1.length = todos.length + 1) ∧
    (jsTrim input = "" →
      (addTodo todos a input now).1 = todos ∧
      (addTodo todos a input now).2.1 = a) := by
  constructor
  · intro h
    simp [addTodo, h]
  · intro h
    simp [addTodo, h]

/-- Concrete instance of `addTodo_spec` in both branches. -/
theorem addTodo_spec_witness :
    jsTrim " hi " ≠ "" ∧
    (addTodo [] (initAnalytics 0) " hi " 5).1 =
      [{ id := 5, text := "hi", completed := false, createdAt := 5 }] ∧
    jsTrim "  " = "" ∧
    (addTodo [] (initAnalytics 0) "  " 5).1 = [] := by
  refine ⟨by decide, ?_, by decide, ?_⟩
  · exact (((addTodo_spec [] (initAnalytics 0) " hi " 5).1 (by decide)).1).trans (by decide)
  · exact ((addTodo_spec [] (initAnalytics 0) "  " 5).2 (by decide)).1

/-! ## C4: the filtered view -/

/-- C4: `filteredTodos` with `active` keeps exactly the incomplete records,
with `completed` exactly the completed ones, with `all` the whole list, and
in every case the result is a sublist of the input, hence in the original
insertion order. -/
theorem filteredTodos_spec (todos : List Todo) :
    filteredTodos .all todos = todos ∧
    filteredTodos .active todos = todos.filter (fun t => !t.completed) ∧
    filteredTodos .completed todos = todos.filter (fun t => t.completed) ∧
    (∀ t, t ∈ filteredTodos .active todos ↔ t ∈ todos ∧ t.completed = false) ∧
    (∀ t, t ∈ filteredTodos .completed todos ↔ t ∈ todos ∧ t.completed = true) ∧
    (∀ f, (filteredTodos f todos).Sublist todos) := by
  refine ⟨?_, rfl, rfl, ?_, ?_, ?_⟩
  · simp [filteredTodos, filterPred]
  · intro t
    simp [filteredTodos, filterPred, List.mem_filter]
  · intro t
    simp [filteredTodos, filterPred, List.mem_filter]
  · intro f
    exact List.filter_sublist todos

/-! ## C5: session-start hydration -/

/-- C5: with no persisted record, hydration of the freshly initialized state
yields the seed record (`totalVisitors = pageViews = sessionsCount = 1`,
both timestamps `now`, all other counters `0`); with a persisted record `p`,
`pageViews` and `sessionsCount` are incremented, both timestamps are set to
`now`, `totalVisitors` is incremented exactly when `now - p.lastVisit`
exceeds 86 400 000 ms, and the remaining counters are carried forward. -/
theorem hydrateAnalytics_spec (p q : Analytics) (now : ℤ) :
    hydrateAnalytics none now (initAnalytics now) =
      { totalVisitors := 1, pageViews := 1, sessionStart := now, lastVisit := now,
        todosCreated := 0, todosCompleted := 0, todosDeleted := 0, sessionsCount := 1 } ∧
    (hydrateAnalytics (some p) now q).pageViews = p.pageViews + 1 ∧
    (hydrateAnalytics (some p) now q).sessionsCount = p.sessionsCount + 1 ∧
    (hydrateAnalytics (some p) now q).sessionStart = now ∧
    (hydrateAnalytics (some p) now q).lastVisit = now ∧
    (now - p.lastVisit > 86400000 →
      (hydrateAnalytics (some p) now q).totalVisitors = p.totalVisitors + 1) ∧
    (now - p.lastVisit ≤ 86400000 →
      (hydrateAnalytics (some p) now q).totalVisitors = p.totalVisitors) ∧
    (hydrateAnalytics (some p) now q).todosCreated = p.todosCreated ∧
    (hydrateAnalytics (some p) now q).todosCompleted = p.todosCompleted ∧
    (hydrateAnalytics (some p) now q).todosDeleted = p.todosDeleted := by
  refine ⟨rfl, rfl, rfl, rfl, rfl, ?_, ?_, rfl, rfl, rfl⟩
  · intro h
    simp only [hydrateAnalytics, oneDayMs]
    rw [if_pos (by omega)]
  · intro h
    simp only [hydrateAnalytics, oneDayMs]
    rw [if_neg (by omega)]

/-- Concrete instance of `hydrateAnalytics_spec`: a second page load one hour
after the first leaves `totalVisitors` unchanged, a load 25 hours later
increments it. -/
theorem hydrateAnalytics_spec_witness :
    (3600000 - (hydrateAnalytics none 0 (initAnalytics 0)).lastVisit ≤ 86400000 ∧
      (hydrateAnalytics (some (hydrateAnalytics none 0 (initAnalytics 0))) 3600000
          (initAnalytics 3600000)).totalVisitors =
        (hydrateAnalytics none 0 (initAnalytics 0)).totalVisitors) ∧
    (90000000 - (hydrateAnalytics none 0 (initAnalytics 0)).lastVisit > 86400000 ∧
      (hydrateAnalytics (some (hydrateAnalytics none 0 (initAnalytics 0))) 90000000
          (initAnalytics 90000000)).totalVisitors =
        (hydrateAnalytics none 0 (initAnalytics 0)).totalVisitors + 1) := by
  constructor
  · exact ⟨by decide,
      ((hydrateAnalytics_spec (hydrateAnalytics none 0 (initAnalytics 0))
          (initAnalytics 3600000) 3600000).2.2.2.2.2.2.1 (by decide))⟩
  · exact ⟨by decide,
      ((hydrateAnalytics_spec (hydrateAnalytics none 0 (initAnalytics 0))
          (initAnalytics 90000000) 90000000).2.2.2.2.2.1 (by decide))⟩

/-! ## C7: counters never decrease -/

/-- C7: every analytics counter is monotonically non-decreasing under
`addTodo`, `toggleTodo`, `deleteTodo` and the session-start hydration (with
or without a persisted record); only the two timestamp fields are
overwritten. -/
theorem analytics_counters_monotone (todos : List Todo) (a p : Analytics)
    (input : String) (now t0 id : ℤ) :
    CountersLE a (addTodo todos a input now).2.1 ∧
    CountersLE a (toggleTodo todos a id).2 ∧
    CountersLE a (deleteTodo todos a id).2 ∧
    CountersLE p (hydrateAnalytics (some p) now (initAnalytics t0)) ∧
    CountersLE (initAnalytics t0) (hydrateAnalytics none now (initAnalytics t0)) := by
  refine ⟨?_, ?_, ?_, ?_, ?_⟩
  · unfold addTodo CountersLE
    split <;> simp
  · unfold toggleTodo CountersLE
    simp
  · unfold deleteTodo CountersLE
    simp
  · unfold CountersLE
    simp only [hydrateAnalytics]
    refine ⟨?_, by simp, by simp, by simp, by simp, by simp⟩
    split <;> simp
  · unfold hydrateAnalytics initAnalytics CountersLE
    simp

/-! ## C10: the zero-session guard -/

/-- C10: with `sessionsCount = 0` the average-session-duration derivation
returns `"0m 0s"` from the guard branch; the division is never reached. -/
theorem getAverageSessionDuration_total (a : Analytics) (now : ℤ)
    (h : a.sessionsCount = 0) :
    getAverageSessionDuration a now = "0m 0s" := by
  simp [getAverageSessionDuration, h]

/-- Concrete instance of `getAverageSessionDuration_total`. -/
theorem getAverageSessionDuration_total_witness :
    (initAnalytics 0).sessionsCount = 0 ∧
    getAverageSessionDuration (initAnalytics 0) 99 = "0m 0s" :=
  ⟨by decide, getAverageSessionDuration_total (initAnalytics 0) 99 (by decide)⟩

/-! ## C2: toggling twice -/

theorem flipIf_flipIf (id : ℤ) (t : Todo) : flipIf id (flipIf id t) = t := by
  cases t with
  | mk i s c cr =>
    by_cases h : i == id <;> simp [flipIf, h]

theorem map_flipIf_flipIf (todos : List Todo) (id : ℤ) :
    (todos.map (flipIf id)).map (flipIf id) = todos := by
  rw [List.map_map]
  have h : (flipIf id ∘ flipIf id) = fun t => t := funext fun t => flipIf_flipIf id t
  rw [h]
  simp

theorem countP_map_flipIf (todos : List Todo) (id : ℤ) :
    (todos.map (flipIf id)).countP (fun t => t.id == id && !t.completed) =
      todos.countP (fun t => t.id == id && t.completed) := by
  rw [List.countP_map]
  have h : ((fun t : Todo => t.id == id && !t.completed) ∘ flipIf id) =
      fun t : Todo => t.id == id && t.completed := by
    funext t
    by_cases h : t.id == id <;> simp [flipIf, h]
  rw [h]

theorem countP_match_split (todos : List Todo) (id : ℤ) :
    todos.countP (fun t => t.id == id && !t.completed) +
      todos.countP (fun t => t.id == id && t.completed) =
      todos.countP (fun t => t.id == id) := by
  induction todos with
  | nil => simp
  | cons t l ih =>
    by_cases h : t.id == id <;>
      cases hc : t.completed <;>
        simp [List.countP_cons, h, hc] <;> omega

/-- C2 as frozen is false on the code: a task that starts completed is
toggled back to incomplete by the first application and re-completed by the
second, and `todosCompleted` still grows by 1 across the two applications
(on the second one), although the task did not start incomplete. -/
theorem toggleTodo_twice_counterexample :
    (∀ t ∈ ([{ id := 1, text := "a", completed := true, createdAt := 0 }] : List Todo),
      t.completed = true) ∧
    (toggleTodo
        (toggleTodo [{ id := 1, text := "a", completed := true, createdAt := 0 }]
          (initAnalytics 0) 1).1
        (toggleTodo [{ id := 1, text := "a", completed := true, createdAt := 0 }]
          (initAnalytics 0) 1).2 1).1 =
      [{ id := 1, text := "a", completed := true, createdAt := 0 }] ∧
    (toggleTodo
        (toggleTodo [{ id := 1, text := "a", completed := true, createdAt := 0 }]
          (initAnalytics 0) 1).1
        (toggleTodo [{ id := 1, text := "a", completed := true, createdAt := 0 }]
          (initAnalytics 0) 1).2 1).2.todosCompleted =
      (initAnalytics 0).todosCompleted + 1 := by
  decide

/-- C2 (amended): toggling an id twice restores the task list exactly; the
first application adds the number of matching incomplete tasks to
`todosCompleted` and the second adds the number of tasks that were
originally complete, so each increment happens on a false-to-true
transition only; when the id occurs exactly once, `todosCompleted` grows by
exactly 1 across the two applications whether or not the task started
incomplete. -/
theorem toggleTodo_twice_spec (todos : List Todo) (a : Analytics) (id : ℤ) :
    (toggleTodo (toggleTodo todos a id).1 (toggleTodo todos a id).2 id).1 = todos ∧
    (toggleTodo todos a id).2.todosCompleted =
      a.todosCompleted + todos.countP (fun t => t.id == id && !t.completed) ∧
    (toggleTodo (toggleTodo todos a id).1 (toggleTodo todos a id).2 id).2.todosCompleted =
      (toggleTodo todos a id).2.todosCompleted +
        todos.countP (fun t => t.id == id && t.completed) ∧
    (todos.countP (fun t => t.id == id) = 1 →
      (toggleTodo (toggleTodo todos a id).1 (toggleTodo todos a id).2 id).2.todosCompleted =
        a.todosCompleted + 1) := by
  refine ⟨?_, rfl, ?_, ?_⟩
  · exact map_flipIf_flipIf todos id
  · show (toggleTodo todos a id).2.todosCompleted +
        (todos.map (flipIf id)).countP (fun t => t.id == id && !t.completed) = _
    rw [countP_map_flipIf]
  · intro h
    show (toggleTodo todos a id).2.todosCompleted +
        (todos.map (flipIf id)).countP (fun t => t.id == id && !t.completed) = _
    rw [countP_map_flipIf]
    show a.todosCompleted + todos.countP (fun t => t.id == id && !t.completed) +
        todos.countP (fun t => t.id == id && t.completed) = _
    rw [Nat.add_assoc, countP_match_split, h]

/-- Concrete instance of `toggleTodo_twice_spec` on a singleton list whose
id occurs once. -/
theorem toggleTodo_twice_spec_witness :
    ([{ id := 3, text := "x", completed := true, createdAt := 0 }] : List Todo).countP
        (fun t => t.id == 3) = 1 ∧
    (toggleTodo
        (toggleTodo [{ id := 3, text := "x", completed := true, createdAt := 0 }]
          (initAnalytics 0) 3).1
        (toggleTodo [{ id := 3, text := "x", completed := true, createdAt := 0 }]
          (initAnalytics 0) 3).2 3).2.todosCompleted =
      (initAnalytics 0).todosCompleted + 1 :=
  ⟨by decide,
    (toggleTodo_twice_spec [{ id := 3, text := "x", completed := true, createdAt := 0 }]
      (initAnalytics 0) 3).2.2.2 (by decide)⟩

/-! ## C3 and C9: deleting -/

theorem countP_id_le_one_of_pairwise (todos : List Todo) (id : ℤ)
    (h : todos.Pairwise fun s t => s.id ≠ t.id) :
    todos.countP (fun t => t.id == id) ≤ 1 := by
  induction todos with
  | nil => simp
  | cons t l ih =>
    rcases List.pairwise_cons.mp h with ⟨ht, hl⟩
    by_cases hm : t.id = id
    · have hz : l.countP (fun t => t.id == id) = 0 := by
        rw [List.countP_eq_zero]
        intro b hb
        have := ht b hb
        simp only [beq_iff_eq]
        omega
      simp [List.countP_cons, hm, hz]
    · simpa [List.countP_cons, hm] using ih hl

theorem length_filter_ne_add_countP (todos : List Todo) (id : ℤ) :
    (todos.filter fun t => t.id != id).length +
      todos.countP (fun t => t.id == id) = todos.length := by
  show (todos.filter fun t => !(t.id == id)).length +
      todos.countP (fun t => t.id == id) = todos.length
  exact filter_not_length_add_countP (fun t => t.id == id) todos

/-- C3: `deleteTodo` increments `todosDeleted` by exactly 1 unconditionally;
on a list satisfying the data-model invariant of pairwise-distinct ids it
removes at most one record, and when no record carries the id the list is
unchanged. -/
theorem deleteTodo_spec (todos : List Todo) (a : Analytics) (id : ℤ) :
    (deleteTodo todos a id).2.todosDeleted = a.todosDeleted + 1 ∧
    ((todos.Pairwise fun s t => s.id ≠ t.id) →
      todos.length ≤ (deleteTodo todos a id).1.length + 1) ∧
    ((∀ t ∈ todos, t.id ≠ id) → (deleteTodo todos a id).1 = todos) := by
  refine ⟨rfl, ?_, ?_⟩
  · intro h
    have h1 := length_filter_ne_add_countP todos id
    have h2 := countP_id_le_one_of_pairwise todos id h
    show todos.length ≤ (todos.filter fun t => t.id != id).length + 1
    omega
  · intro h
    show todos.filter (fun t => t.id != id) = todos
    rw [List.filter_eq_self]
    intro t ht
    simpa using h t ht

/-- Concrete instance of `deleteTodo_spec`: deleting an absent id from a
two-element distinct-id list removes nothing and still bumps the counter. -/
theorem deleteTodo_spec_witness :
    (deleteTodo [{ id := 1, text := "a", completed := false, createdAt := 0 },
        { id := 2, text := "b", completed := true, createdAt := 0 }]
      (initAnalytics 0) 9).2.todosDeleted = (initAnalytics 0).todosDeleted + 1 ∧
    ([{ id := 1, text := "a", completed := false, createdAt := 0 },
        { id := 2, text := "b", completed := true, createdAt := 0 }] : List Todo).length ≤
      (deleteTodo [{ id := 1, text := "a", completed := false, createdAt := 0 },
          { id := 2, text := "b", completed := true, createdAt := 0 }]
        (initAnalytics 0) 9).1.length + 1 ∧
    (deleteTodo [{ id := 1, text := "a", completed := false, createdAt := 0 },
        { id := 2, text := "b", completed := true, createdAt := 0 }]
      (initAnalytics 0) 9).1 =
      [{ id := 1, text := "a", completed := false, createdAt := 0 },
        { id := 2, text := "b", completed := true, createdAt := 0 }] :=
  ⟨(deleteTodo_spec [{ id := 1, text := "a", completed := false, createdAt := 0 },
        { id := 2, text := "b", completed := true, createdAt := 0 }] (initAnalytics 0) 9).1,
    (deleteTodo_spec [{ id := 1, text := "a", completed := false, createdAt := 0 },
        { id := 2, text := "b", completed := true, createdAt := 0 }] (initAnalytics 0) 9).2.1
      (by decide),
    (deleteTodo_spec [{ id := 1, text := "a", completed := false, createdAt := 0 },
        { id := 2, text := "b", completed := true, createdAt := 0 }] (initAnalytics 0) 9).2.2
      (by decide)⟩

/-- C9: `deleteTodo` keeps exactly the records whose id differs, so every
record carrying the deleted id is removed; the length drops by the number
of matching records, hence by at least 2 as soon as the id occurs at least
twice (the same-millisecond id-collision case). -/
theorem deleteTodo_removes_all_matching (todos : List Todo) (a : Analytics) (id : ℤ) :
    (deleteTodo todos a id).1 = todos.filter (fun t => t.id != id) ∧
    (∀ t ∈ (deleteTodo todos a id).1, t.id ≠ id) ∧
    (deleteTodo todos a id).1.length + todos.countP (fun t => t.id == id) = todos.length ∧
    (2 ≤ todos.countP (fun t => t.id == id) →
      (deleteTodo todos a id).1.length + 2 ≤ todos.length) := by
  refine ⟨rfl, ?_, length_filter_ne_add_countP todos id, ?_⟩
  · intro t ht
    have h := List.of_mem_filter ht
    simpa using h
  · intro h
    have h1 := length_filter_ne_add_countP todos id
    show (todos.filter fun t => t.id != id).length + 2 ≤ todos.length
    omega

/-- Concrete instance of `deleteTodo_removes_all_matching` with a duplicated
id: one delete removes both records, dropping the length from 2 to 0. -/
theorem deleteTodo_removes_all_matching_witness :
    ([{ id := 7, text := "a", completed := false, createdAt := 0 },
        { id := 7, text := "b", completed := false, createdAt := 0 }] : List Todo).countP
      (fun t => t.id == 7) = 2 ∧
    (deleteTodo [{ id := 7, text := "a", completed := false, createdAt := 0 },
        { id := 7, text := "b", completed := false, createdAt := 0 }]
      (initAnalytics 0) 7).1.length + 2 ≤
      ([{ id := 7, text := "a", completed := false, createdAt := 0 },
          { id := 7, text := "b", completed := false, createdAt := 0 }] : List Todo).length :=
  ⟨by decide,
    (deleteTodo_removes_all_matching
        [{ id := 7, text := "a", completed := false, createdAt := 0 },
          { id := 7, text := "b", completed := false, createdAt := 0 }]
        (initAnalytics 0) 7).2.2.2 (by decide)⟩

/-! ## C6: the completion rate -/

theorem floor_ratCast_div_nat (d m : ℕ) :
    ⌊(d : ℚ) / (m : ℚ)⌋ = ((d / m : ℕ) : ℤ) := by
  rcases Nat.eq_zero_or_pos m with hm | hm
  · subst hm
    simp
  · have h0 : (0 : ℚ) ≤ (d : ℚ) / (m : ℚ) := by positivity
    have h1 : ⌊(d : ℚ) / (m : ℚ)⌋₊ = d / m := by
      rw [Nat.floor_div_nat, Nat.floor_natCast]
    rw [← Int.floor_toNat] at h1
    have h2 : 0 ≤ ⌊(d : ℚ) / (m : ℚ)⌋ := Int.floor_nonneg.mpr h0
    omega

/-- C6: the completion rate is 0 when `todosCreated = 0`, and otherwise it
equals `round (todosCompleted / todosCreated * 100)`, which in integer
arithmetic is `(200 * todosCompleted + todosCreated) / (2 * todosCreated)`
rounded down. -/
theorem completionRate_spec (a : Analytics) :
    (a.todosCreated = 0 → completionRate a = 0) ∧
    (0 < a.todosCreated →
      completionRate a = round (((a.todosCompleted : ℚ) / (a.todosCreated : ℚ)) * 100) ∧
      completionRate a =
        (((200 * a.todosCompleted + a.todosCreated) / (2 * a.todosCreated) : ℕ) : ℤ)) := by
  constructor
  · intro h
    simp [completionRate, h]
  · intro h
    have hrate : completionRate a =
        round (((a.todosCompleted : ℚ) / (a.todosCreated : ℚ)) * 100) := by
      simp [completionRate, h]
    refine ⟨hrate, ?_⟩
    rw [hrate, round_eq]
    have hne : ((a.todosCreated : ℚ)) ≠ 0 := by
      exact_mod_cast h.ne'
    have hsum : ((a.todosCompleted : ℚ) / (a.todosCreated : ℚ)) * 100 + 1 / 2 =
        ((200 * a.todosCompleted + a.todosCreated : ℕ) : ℚ) /
          ((2 * a.todosCreated : ℕ) : ℚ) := by
      push_cast
      field_simp
      ring
    rw [hsum, floor_ratCast_div_nat]

/-- Concrete instance of `completionRate_spec` in both branches
(2 of 3 created todos completed gives rate 67). -/
theorem completionRate_spec_witness :
    completionRate (initAnalytics 0) = 0 ∧
    (0 < 3 ∧
      completionRate { initAnalytics 0 with todosCreated := 3, todosCompleted := 2 } =
        (((200 * 2 + 3) / (2 * 3) : ℕ) : ℤ)) := by
  refine ⟨(completionRate_spec (initAnalytics 0)).1 (by decide), by decide, ?_⟩
  exact ((completionRate_spec
    { initAnalytics 0 with todosCreated := 3, todosCompleted := 2 }).2 (by decide)).2

/-! ## C8: the average session duration -/

theorem getAverageSessionDuration_spec (a : Analytics) (now : ℤ)
    (hn : 0 < a.sessionsCount) (hs : a.sessionStart ≤ now) :
    getAverageSessionDuration a now =
      toString ((now - a.sessionStart).toNat / (60000 * a.sessionsCount)) ++ "m " ++
      toString ((now - a.sessionStart).toNat % (60000 * a.sessionsCount) /
        (1000 * a.sessionsCount)) ++ "s" := by
  have h0 : (0 : ℤ) ≤ now - a.sessionStart := by omega
  have hd : (((now - a.sessionStart).toNat : ℕ) : ℚ) = (now : ℚ) - (a.sessionStart : ℚ) := by
    rw [← Int.cast_natCast, Int.toNat_of_nonneg h0]
    push_cast
    ring
  have hnq : (0 : ℚ) < (a.sessionsCount : ℚ) := by exact_mod_cast hn
  simp only [getAverageSessionDuration]
  rw [if_neg (Nat.pos_iff_ne_zero.mp hn)]
  rw [← hd]
  set d : ℕ := (now - a.sessionStart).toNat with hdd
  set n : ℕ := a.sessionsCount with hnn
  have hq := Nat.div_add_mod d (60000 * n)
  set q : ℕ := d / (60000 * n) with hqq
  set r : ℕ := d % (60000 * n) with hrr
  have hmin : ⌊((d : ℚ) / (n : ℚ)) / 60000⌋ = ((q : ℕ) : ℤ) := by
    rw [div_div]
    have hc : ((n : ℚ) * 60000) = ((60000 * n : ℕ) : ℚ) := by
      push_cast
      ring
    rw [hc, floor_ratCast_div_nat]
  have hmodv : jsMod ((d : ℚ) / (n : ℚ)) 60000 = (r : ℚ) / (n : ℚ) := by
    have hpos : (0 : ℚ) ≤ ((d : ℚ) / (n : ℚ)) / 60000 := by positivity
    unfold jsMod jsTrunc
    rw [if_pos hpos, hmin]
    have hdr : (d : ℚ) = 60000 * (n : ℚ) * (q : ℚ) + (r : ℚ) := by
      have := hq
      push_cast [← this]
      ring
    field_simp
    rw [hdr]
    ring
  have hsec : ⌊((r : ℚ) / (n : ℚ)) / 1000⌋ = ((r / (1000 * n) : ℕ) : ℤ) := by
    rw [div_div]
    have hc : ((n : ℚ) * 1000) = ((1000 * n : ℕ) : ℚ) := by
      push_cast
      ring
    rw [hc, floor_ratCast_div_nat]
  rw [hmin, hmodv, hsec, toString_intCast, toString_intCast]

/-- Concrete instance of `getAverageSessionDuration_spec`: two sessions,
123 seconds elapsed, average 61.5 s, shown as `1m 1s`. -/
theorem getAverageSessionDuration_spec_witness :
    0 < ({ initAnalytics 0 with sessionsCount := 2 } : Analytics).sessionsCount ∧
    ({ initAnalytics 0 with sessionsCount := 2 } : Analytics).sessionStart ≤ 123000 ∧
    getAverageSessionDuration { initAnalytics 0 with sessionsCount := 2 } 123000 = "1m 1s" :=
  ⟨by decide, by decide,
    (getAverageSessionDuration_spec { initAnalytics 0 with sessionsCount := 2 } 123000
      (by decide) (by decide)).trans (by decide)⟩
